import Mathlib

/-!
Verification of the LIP (local inter-process call) repository against its
specification.  The definitions below are a shallow embedding of
`src/lip.py` (classes `LIPModule` and `LIPClient`): CBOR values become an
inductive `Value`, the request/response maps become association lists, the
connection handler and the client call path become pure functions, and the
process/filesystem state touched by `start`/`terminate` becomes explicit
state passing.
-/

namespace LIP

/-- A CBOR-encodable Python value, as exchanged by `cbor2.dumps`/`loads`
in `lip.py`.  `null` is Python `None`. -/
inductive Value where
  | null : Value
  | int (n : Int) : Value
  | str (s : String) : Value
  | bool (b : Bool) : Value
  | list (xs : List Value) : Value
  | map (kvs : List (String × Value)) : Value

/-- The apostrophe character, used by Python error messages to quote
parameter names. -/
def squoteChar : Char := Char.ofNat 39

/-- The apostrophe as a one-character string. -/
def squote : String := String.mk [squoteChar]

/-- `msg` quotes the name `p` the way Python error messages do
(`... 'p' ...`). -/
def mentionsName (msg p : String) : Prop :=
  ∃ pre suf, msg = pre ++ (squote ++ p ++ squote) ++ suf

/-- First-match lookup in an association list, modelling `dict.get(k)` on a
decoded CBOR map (CBOR maps have unique keys, so first match is the match). -/
def lookupKv (kvs : List (String × Value)) (k : String) : Option Value :=
  match kvs with
  | [] => none
  | (k2, v) :: rest => if k2 = k then some v else lookupKv rest k

/-- Remove a key from an association list, modelling `dict.pop(k)` (order of
the remaining items is preserved, as in a Python dict). -/
def removeKey (kvs : List (String × Value)) (k : String) : List (String × Value) :=
  kvs.filter (fun kv => ¬ kv.1 = k)

/-- The Python exceptions that the client-visible code paths of `lip.py`
can raise. -/
inductive PyError where
  | valueError (v : Value) : PyError
  | connectionError (msg : String) : PyError
  | connectionRefusedError (msg : String) : PyError
  | attributeError (msg : String) : PyError

/-- Message of `inspect.Signature.bind` for a missing required argument. -/
def missingArgMsg (p : String) : String :=
  "missing a required argument: " ++ squote ++ p ++ squote

/-- Message of `inspect.Signature.bind` for excess positional arguments.
It names no parameter. -/
def tooManyMsg : String := "too many positional arguments"

/-- Message of `inspect.Signature.bind` for an unexpected keyword argument. -/
def unexpectedKwMsg (k : String) : String :=
  "got an unexpected keyword argument " ++ squote ++ k ++ squote

/-- Message of `inspect.Signature.bind` for an argument passed both
positionally and by keyword. -/
def multipleMsg (p : String) : String :=
  "multiple values for argument " ++ squote ++ p ++ squote

/-- `inspect.signature(func).bind(*args, **kwargs)` (line 164-166 of
`src/lip.py`), for a function whose parameters are plain
positional-or-keyword parameters without defaults — the only kind the
repository binds (e.g. `sum_func(a, b)`).  Mirrors CPython
`Signature._bind`: positional arguments are paired with parameters left to
right (`too many positional arguments` when parameters run out, `multiple
values` when a paired parameter also appears in kwargs); remaining
parameters are filled from kwargs (`missing a required argument` when
absent); leftover kwargs raise `got an unexpected keyword argument`.
Returns the bound arguments in parameter order. -/
def sigBind (params : List String) (args : List Value)
    (kwargs : List (String × Value)) : Except String (List (String × Value)) :=
  match params, args with
  | [], [] =>
      match kwargs with
      | [] => .ok []
      | (k, _) :: _ => .error (unexpectedKwMsg k)
  | [], _ :: _ => .error tooManyMsg
  | p :: ps, v :: vs =>
      if (lookupKv kwargs p).isSome then .error (multipleMsg p)
      else
        match sigBind ps vs kwargs with
        | .ok rest => .ok ((p, v) :: rest)
        | .error e => .error e
  | p :: ps, [] =>
      match lookupKv kwargs p with
      | some v =>
          match sigBind ps [] (removeKey kwargs p) with
          | .ok rest => .ok ((p, v) :: rest)
          | .error e => .error e
      | none => .error (missingArgMsg p)

/-- A Python function as bound by the `LIPModule` decorator: its name, its
declared parameters (positional-or-keyword, no defaults), its docstring
(`__doc__`), and its body.  The body receives the bound arguments in
parameter order and either returns a value or raises (`Except.error` is the
stringified exception). -/
structure PyFunc where
  name : String
  params : List String
  doc : Option String
  impl : List Value → Except String Value

/-- `sum_func(a, b) = a + b` from `src/test_lip.py` (no docstring).
Non-numeric arguments raise, like Python `+` on unsupported operands. -/
def sum_func : PyFunc :=
  ⟨"sum_func", ["a", "b"], none,
    fun vs =>
      match vs with
      | [.int a, .int b] => .ok (.int (a + b))
      | _ => .error "unsupported operand type(s) for +"⟩

/-- `product_func(a, b) = a * b` from `src/test_lip.py` (no docstring). -/
def product_func : PyFunc :=
  ⟨"product_func", ["a", "b"], none,
    fun vs =>
      match vs with
      | [.int a, .int b] => .ok (.int (a * b))
      | _ => .error "unsupported operand type(s) for *"⟩

/-- `enc_data.get("args", [])` (line 154).  The client encoder always puts a
CBOR array under `"args"`; any other shape would make `func(*args)` fail
before binding, so it is decoded as the empty default. -/
def decodeArgs (enc : List (String × Value)) : List Value :=
  match lookupKv enc "args" with
  | some (.list xs) => xs
  | _ => []

/-- `enc_data.get("kwargs", {})` (line 155).  The client encoder always puts
a CBOR map under `"kwargs"`. -/
def decodeKwargs (enc : List (String × Value)) : List (String × Value) :=
  match lookupKv enc "kwargs" with
  | some (.map kvs) => kvs
  | _ => []

/-- `enc_data.get("type", "call")` (line 156).  Only the comparison with
`"docstring"` is ever made of it, so a non-string value (which can never
equal `"docstring"`) decodes to the default `"call"`. -/
def decodeType (enc : List (String × Value)) : String :=
  match lookupKv enc "type" with
  | some (.str s) => s
  | _ => "call"

/-- `func.__doc__` as a CBOR value: the docstring, or `None`. -/
def docValue (doc : Option String) : Value :=
  match doc with
  | some s => .str s
  | none => .null

/-- What one run of `LIPModule.connection_handler` did: the response map it
sent back (`none` when it closed the connection without sending bytes), and
whether the bound function body was executed. -/
structure HandlerOutcome where
  response : Option (List (String × Value))
  executed : Bool

/-- `LIPModule.connection_handler` (lines 129-196 of `src/lip.py`) after the
receive loop: `reqData` is the decoded request map, `none` standing for both
an empty read (line 149-150) and a payload `cbor2.loads` rejects (the
exception falls to line 194 and no response is sent).  A `"docstring"`
request is answered with `__doc__` before any validation; otherwise the
arguments are validated with `sig.bind` and on `TypeError` the handler
replies `{error: str(e)}` without executing; an exception from the body
becomes `{error: str(e)}`; success becomes `{result: result}`. -/
def connection_handler (func : PyFunc) (reqData : Option (List (String × Value))) :
    HandlerOutcome :=
  match reqData with
  | none => ⟨none, false⟩
  | some enc =>
      let args := decodeArgs enc
      let kwargs := decodeKwargs enc
      let request_type := decodeType enc
      if request_type = "docstring" then
        ⟨some [("result", docValue func.doc)], false⟩
      else
        match sigBind func.params args kwargs with
        | .error e => ⟨some [("error", .str e)], false⟩
        | .ok bound =>
            match func.impl (bound.map Prod.snd) with
            | .error e => ⟨some [("error", .str e)], true⟩
            | .ok result => ⟨some [("result", result)], true⟩

/-- `/tmp/lipcm-{name}.sock` — the socket path derived from a name (line 208
derives it from `func.__name__`; line 90 re-derives it from
`server_process.name`). -/
def socketPathFor (name : String) : String :=
  "/tmp/lipcm-" ++ name ++ ".sock"

/-- What the operating system does when the client connects to a socket
path: refuse (no listener behind the artifact), or hand the request map to
the listening server, which may answer with a response map or close
silently. -/
inductive ConnOutcome where
  | refused : ConnOutcome
  | connected (respond : List (String × Value) → Option (List (String × Value))) :
      ConnOutcome

/-- The network as the client sees it: each socket path either refuses or
is served. -/
def Network : Type := String → ConnOutcome

/-- The client's directory snapshot `self.sockets`: function name to socket
path (the `func_name` field of the entries in `scan_sockets` is never read
by the call path, so the entry reduces to its `socket_path`). -/
def Directory : Type := List (String × String)

/-- Snapshot lookup `self.sockets[func_name]["socket_path"]`. -/
def dirLookup (sockets : Directory) (func_name : String) : Option String :=
  match sockets with
  | [] => none
  | (n, p) :: rest => if n = func_name then some p else dirLookup rest func_name

/-- `LIPClient.scan_sockets` (lines 251-262): from the artifacts present
under `/tmp` matching `lipcm-*.sock`, build the name-to-path snapshot. -/
def scan_sockets (artifactNames : List String) : Directory :=
  artifactNames.map (fun n => (n, socketPathFor n))

/-- `LIPClient.list_functions` (lines 356-362): the names of the snapshot. -/
def list_functions (sockets : Directory) : List String :=
  sockets.map Prod.fst

/-- The `ValueError` message raised by the client for a name absent from
its snapshot (lines 320-321 and 282-283). -/
def notFoundMsg (func_name : String) : String :=
  "Function " ++ squote ++ func_name ++ squote ++ " not found in available sockets."

/-- The `ConnectionError` message of line 349. -/
def refusedMsg (socket_path : String) : String :=
  "Could not connect to socket at " ++ socket_path

/-- `LIPClient.call_function` (lines 304-353).  Unknown name: `ValueError`
raised before any socket is opened.  Connection refused:
`ConnectionRefusedError` is translated to `ConnectionError` (line 348-349).
Empty response: `None` (lines 339-340).  A response with an `"error"` key
raises `ValueError(data["error"])`; otherwise `data.get("result", None)`
is returned (`Value.null` models Python `None`). -/
def call_function (sockets : Directory) (net : Network) (func_name : String)
    (args : List Value) (kwargs : List (String × Value)) : Except PyError Value :=
  match dirLookup sockets func_name with
  | none => .error (.valueError (.str (notFoundMsg func_name)))
  | some socket_path =>
      match net socket_path with
      | .refused => .error (.connectionError (refusedMsg socket_path))
      | .connected respond =>
          match respond [("args", .list args), ("kwargs", .map kwargs)] with
          | none => .ok .null
          | some data =>
              match lookupKv data "error" with
              | some e => .error (.valueError e)
              | none =>
                  match lookupKv data "result" with
                  | some v => .ok v
                  | none => .ok .null

/-- `LIPClient.get_docstring` (lines 274-301).  Unknown name: `ValueError`.
Connection refused: the `ConnectionRefusedError` is re-raised unchanged
(the bare `except` at line 299 only prints and re-raises).  Empty response:
`None`; otherwise `data.get("result", None)`. -/
def get_docstring (sockets : Directory) (net : Network) (func_name : String) :
    Except PyError Value :=
  match dirLookup sockets func_name with
  | none => .error (.valueError (.str (notFoundMsg func_name)))
  | some socket_path =>
      match net socket_path with
      | .refused =>
          .error (.connectionRefusedError ("Connection refused: " ++ socket_path))
      | .connected respond =>
          match respond [("type", .str "docstring")] with
          | none => .ok .null
          | some data =>
              match lookupKv data "result" with
              | some v => .ok v
              | none => .ok .null

/-- A live server for `func`, as plugged into a `Network`: it feeds the
request the client sent to `connection_handler` and sends back whatever
response the handler produced. -/
def serveFunc (func : PyFunc) : List (String × Value) → Option (List (String × Value)) :=
  fun req => (connection_handler func (some req)).response

/-- The one-endpoint round trip: a client whose snapshot maps `func.name`
to its socket path, and the network serving `func` behind it. -/
def lipCall (func : PyFunc) (args : List Value) (kwargs : List (String × Value)) :
    Except PyError Value :=
  call_function [(func.name, socketPathFor func.name)]
    (fun _ => .connected (serveFunc func)) func.name args kwargs

/-- The DESCRIBE round trip against a live server for `func`. -/
def lipGetDoc (func : PyFunc) : Except PyError Value :=
  get_docstring [(func.name, socketPathFor func.name)]
    (fun _ => .connected (serveFunc func)) func.name

/-- The receive loop shared by `connection_handler` (lines 141-148) and
`call_function` (lines 331-338): read chunks of at most `bufsize` bytes,
stop on an empty chunk (peer closed) or on a chunk shorter than `bufsize`.
`chunks` is the sequence of byte chunks the kernel delivers for successive
`recv(bufsize)` calls on the stream; bytes are modelled as `Nat`. -/
def recvChunks (bufsize : Nat) : List (List Nat) → List Nat
  | [] => []
  | c :: cs =>
      if c = [] then []
      else c ++ (if c.length < bufsize then [] else recvChunks bufsize cs)

/-- `multiprocessing.Process(target=..., args=...)` is created without a
`name=`; the standard library then names it `Process-N`.  This is the name
`terminate` reads back at line 90. -/
def defaultProcessName : String := "Process-1"

/-- The server process handle `self.server_process`: only its `name` is
read after creation. -/
structure ProcessInfo where
  name : String

/-- The attribute state of a `LIPModule` instance.  Python attributes exist
only once assigned: `server_process` is `none` while the attribute was
never set (reading it raises `AttributeError`), `some p` once
`start_server` assigned it.  (`__init__` sets the other four attributes but
never `server_process`.) -/
structure LIPModuleState where
  server_started : Bool
  log_level : Int
  lru : Bool
  lru_max : Option Int
  server_process : Option ProcessInfo

/-- `LIPModule.__init__` (lines 33-46): `lru_max` is kept only when
strictly positive, else it becomes `None`; `server_process` is not
assigned. -/
def LIPModule.init (log_level : Int) (lru : Bool) (lru_max : Int) : LIPModuleState :=
  ⟨false, log_level, lru, if lru_max > 0 then some lru_max else none, none⟩

/-- `LIPModule.start_server` (lines 67-78): spawns the server process and
stores its handle.  `procName` is the name `multiprocessing` gives the new
process (`defaultProcessName`, since no name is passed). -/
def start_server (st : LIPModuleState) (procName : String) : LIPModuleState :=
  ⟨st.server_started, st.log_level, st.lru, st.lru_max, some ⟨procName⟩⟩

/-- `os.unlink(p)` on a filesystem modelled as the list of paths present
(the surrounding `try/except OSError` of line 91-96 swallows the failure
when `p` is absent, so unlink of an absent path leaves the state
unchanged). -/
def unlinkPath (p : String) (fs : List String) : List String :=
  fs.filter (fun q => ¬ q = p)

/-- `LIPModule.terminate` (lines 81-96).  Reading `self.server_process`
raises `AttributeError` when the attribute was never assigned (i.e.
`start_server` never ran — `__init__` does not set it).  Otherwise the
process is terminated and joined, and the path
`/tmp/lipcm-{server_process.name}.sock` — derived from the PROCESS name,
not the function name — is unlinked. -/
def terminate (st : LIPModuleState) (fs : List String) : Except PyError (List String) :=
  match st.server_process with
  | none =>
      .error (.attributeError (squote ++ "LIPModule" ++ squote
        ++ " object has no attribute " ++ squote ++ "server_process" ++ squote))
  | some proc => .ok (unlinkPath (socketPathFor proc.name) fs)

/-- `functools.lru_cache(maxsize)` state: the cached `(key, value)` pairs,
most recently used first. -/
def LruCache (K V : Type) : Type := List (K × V)

/-- Cache lookup by key (first match). -/
def lruLookup {K V : Type} [DecidableEq K] : LruCache K V → K → Option V
  | [], _ => none
  | (k2, v) :: rest, k => if k2 = k then some v else lruLookup rest k

/-- One call through an `lru_cache(maxsize)`-wrapped function: a hit moves
the entry to the front and does not recompute; a miss computes `f k`,
inserts it in front, and with a bounded cache (`cap = some n`) evicts past
the capacity.  `cap = none` models `maxsize=None`: a plain dict, no
eviction ever. -/
def lruStep {K V : Type} [DecidableEq K] (cap : Option Nat) (f : K → V)
    (cache : LruCache K V) (k : K) : LruCache K V :=
  match lruLookup cache k with
  | some v =>
      (k, v) :: cache.filter (fun e => ¬ e.1 = k)
  | none =>
      match cap with
      | none => (k, f k) :: cache
      | some n => ((k, f k) :: cache).take n

/-- A sequence of calls through the cache. -/
def lruRun {K V : Type} [DecidableEq K] (cap : Option Nat) (f : K → V)
    (cache : LruCache K V) : List K → LruCache K V
  | [] => cache
  | k :: ks => lruRun cap f (lruStep cap f cache k) ks

/-- The capacity `lru_cache(self.lru_max)` receives (line 214), as computed
by `__init__` line 46 from the `lru_max` argument: `maxsize=lru_max` when
strictly positive, `maxsize=None` otherwise. -/
def lruMaxOf (lru_max : Int) : Option Nat :=
  if lru_max > 0 then some lru_max.toNat else none

/-! ### Helper lemmas (shared) -/

theorem lookupKv_result_result (v : Value) :
    lookupKv [("result", v)] "result" = some v := rfl

theorem lookupKv_result_error (v : Value) :
    lookupKv [("result", v)] "error" = none := rfl

theorem lookupKv_error_error (v : Value) :
    lookupKv [("error", v)] "error" = some v := rfl

theorem lookupKv_error_result (v : Value) :
    lookupKv [("error", v)] "result" = none := rfl

theorem decodeType_call_request (args : List Value) (kwargs : List (String × Value)) :
    decodeType [("args", .list args), ("kwargs", .map kwargs)] = "call" := rfl

theorem decodeArgs_call_request (args : List Value) (kwargs : List (String × Value)) :
    decodeArgs [("args", .list args), ("kwargs", .map kwargs)] = args := rfl

theorem decodeKwargs_call_request (args : List Value) (kwargs : List (String × Value)) :
    decodeKwargs [("args", .list args), ("kwargs", .map kwargs)] = kwargs := rfl

theorem dirLookup_single (n p : String) : dirLookup [(n, p)] n = some p := by
  simp [dirLookup]

/-! ### C1, C2, C7: lifecycle and framing defects -/

/-- C1: the claim fails on the code.  `terminate` re-derives the unlink path
from `server_process.name` — the `multiprocessing` default `Process-1`, never
the bound function's name — so for an endpoint bound to `sum_func` the
artifact `/tmp/lipcm-sum_func.sock` is still present after `terminate()`
returns (the unlink of the wrong path is swallowed by the `except OSError`). -/
theorem c1_terminate_leaves_function_artifact :
    terminate (start_server (LIPModule.init 20 true 0) defaultProcessName)
      [socketPathFor "sum_func"] = .ok [socketPathFor "sum_func"] ∧
    socketPathFor defaultProcessName ≠ socketPathFor "sum_func" := by
  constructor
  · rfl
  · decide

set_option maxRecDepth 40000 in
/-- C2: the claim fails on the code.  Both receive loops stop as soon as one
`recv(1024)` returns fewer than 1024 bytes, so a 1300-byte payload that the
kernel delivers as a 700-byte chunk followed by a 600-byte chunk is read as
its first 700 bytes only — the complete payload is not read and no
self-delimiting framing exists. -/
theorem c2_recv_stops_at_short_chunk :
    recvChunks 1024 [List.replicate 700 0, List.replicate 600 0]
      = List.replicate 700 0 ∧
    (List.replicate 700 (0 : Nat) ++ List.replicate 600 0).length = 1300 ∧
    recvChunks 1024 [List.replicate 700 0, List.replicate 600 0]
      ≠ List.replicate 700 0 ++ List.replicate 600 0 := by
  refine ⟨rfl, by simp, ?_⟩
  intro h
  have h2 : List.replicate 700 (0 : Nat) = List.replicate 700 0 ++ List.replicate 600 0 :=
    (rfl : recvChunks 1024 [List.replicate 700 0, List.replicate 600 0]
      = List.replicate 700 0).symm.trans h
  have hlen := congrArg List.length h2
  simp at hlen

/-- C7: the claim fails on the code.  `__init__` never assigns
`self.server_process`, so `terminate()` on a module whose `start()` was
never called reads a missing attribute and raises `AttributeError` instead
of being a safe no-op — whatever the constructor arguments and whatever the
filesystem state. -/
theorem c7_terminate_without_start_raises (log_level : Int) (lru : Bool)
    (lru_max : Int) (fs : List String) :
    terminate (LIPModule.init log_level lru lru_max) fs
      = .error (.attributeError (squote ++ "LIPModule" ++ squote
          ++ " object has no attribute " ++ squote ++ "server_process" ++ squote)) := rfl

/-! ### C3: argument-validation errors -/

theorem mentionsName_missing (p : String) : mentionsName (missingArgMsg p) p :=
  ⟨"missing a required argument: ", "", by
    simp [missingArgMsg, String.append_assoc, String.append_empty]⟩

theorem mentionsName_unexpected (k : String) : mentionsName (unexpectedKwMsg k) k :=
  ⟨"got an unexpected keyword argument ", "", by
    simp [unexpectedKwMsg, String.append_assoc, String.append_empty]⟩

theorem mentionsName_multiple (p : String) : mentionsName (multipleMsg p) p :=
  ⟨"multiple values for argument ", "", by
    simp [multipleMsg, String.append_assoc, String.append_empty]⟩

theorem squoteChar_mem_of_mentionsName (msg p : String) (h : mentionsName msg p) :
    squoteChar ∈ msg.data := by
  obtain ⟨pre, suf, rfl⟩ := h
  simp [String.data_append, squote]

theorem not_mentionsName_of_no_squote (msg p : String)
    (h : ¬ squoteChar ∈ msg.data) : ¬ mentionsName msg p :=
  fun hm => h (squoteChar_mem_of_mentionsName msg p hm)

theorem mem_map_fst_removeKey (kvs : List (String × Value)) (k x : String)
    (h : x ∈ (removeKey kvs k).map Prod.fst) : x ∈ kvs.map Prod.fst := by
  rcases List.mem_map.mp h with ⟨e, he, rfl⟩
  exact List.mem_map_of_mem _ (List.mem_of_mem_filter he)

/-- Every error `sigBind` can produce is the generic
`too many positional arguments`, or quotes a declared parameter
(missing / multiple values), or quotes a supplied keyword (unexpected). -/
theorem sigBind_error_shape (params : List String) (args : List Value)
    (kwargs : List (String × Value)) (msg : String)
    (h : sigBind params args kwargs = .error msg) :
    msg = tooManyMsg ∨
      ∃ p, ((msg = missingArgMsg p ∨ msg = multipleMsg p) ∧ p ∈ params) ∨
        (msg = unexpectedKwMsg p ∧ p ∈ kwargs.map Prod.fst) := by
  induction params generalizing args kwargs with
  | nil =>
      cases args with
      | nil =>
          cases kwargs with
          | nil => simp [sigBind] at h
          | cons kv rest =>
              have h2 : msg = unexpectedKwMsg kv.1 := by
                simpa [sigBind] using h.symm
              exact Or.inr ⟨kv.1, Or.inr ⟨h2, List.mem_map_of_mem _ (List.mem_cons_self kv rest)⟩⟩
      | cons a as =>
          have h2 : msg = tooManyMsg := by simpa [sigBind] using h.symm
          exact Or.inl h2
  | cons p ps ih =>
      cases args with
      | cons v vs =>
          by_cases hk : (lookupKv kwargs p).isSome
          · have h2 : msg = multipleMsg p := by simpa [sigBind, hk] using h.symm
            exact Or.inr ⟨p, Or.inl ⟨Or.inr h2, List.mem_cons_self p ps⟩⟩
          · cases hrec : sigBind ps vs kwargs with
            | ok rest => simp [sigBind, hk, hrec] at h
            | error e =>
                have h2 : msg = e := by simpa [sigBind, hk, hrec] using h.symm
                subst h2
                rcases ih vs kwargs hrec with h3 | ⟨q, h3 | h3⟩
                · exact Or.inl h3
                · exact Or.inr ⟨q, Or.inl ⟨h3.1, List.mem_cons_of_mem p h3.2⟩⟩
                · exact Or.inr ⟨q, Or.inr h3⟩
      | nil =>
          cases hk : lookupKv kwargs p with
          | none =>
              have h2 : msg = missingArgMsg p := by simpa [sigBind, hk] using h.symm
              exact Or.inr ⟨p, Or.inl ⟨Or.inl h2, List.mem_cons_self p ps⟩⟩
          | some v =>
              cases hrec : sigBind ps [] (removeKey kwargs p) with
              | ok rest => simp [sigBind, hk, hrec] at h
              | error e =>
                  have h2 : msg = e := by simpa [sigBind, hk, hrec] using h.symm
                  subst h2
                  rcases ih [] (removeKey kwargs p) hrec with h3 | ⟨q, h3 | h3⟩
                  · exact Or.inl h3
                  · exact Or.inr ⟨q, Or.inl ⟨h3.1, List.mem_cons_of_mem p h3.2⟩⟩
                  · exact Or.inr ⟨q, Or.inr ⟨h3.1, mem_map_fst_removeKey kwargs p q h3.2⟩⟩

/-- A `"docstring"` request is answered with `__doc__` and nothing runs. -/
theorem connection_handler_docstring (func : PyFunc) (enc : List (String × Value))
    (hty : decodeType enc = "docstring") :
    connection_handler func (some enc) = ⟨some [("result", docValue func.doc)], false⟩ := by
  simp only [connection_handler]
  rw [if_pos hty]

/-- On `sig.bind` failure the handler replies `{error: str(e)}` and the
body does not run. -/
theorem connection_handler_bind_error (func : PyFunc) (enc : List (String × Value))
    (msg : String) (hty : ¬ decodeType enc = "docstring")
    (hbind : sigBind func.params (decodeArgs enc) (decodeKwargs enc) = .error msg) :
    connection_handler func (some enc) = ⟨some [("error", .str msg)], false⟩ := by
  simp only [connection_handler]
  rw [if_neg hty, hbind]

/-- When the body raises, the handler replies `{error: str(e)}` after
having executed. -/
theorem connection_handler_exec_error (func : PyFunc) (enc : List (String × Value))
    (bound : List (String × Value)) (e : String)
    (hty : ¬ decodeType enc = "docstring")
    (hbind : sigBind func.params (decodeArgs enc) (decodeKwargs enc) = .ok bound)
    (himpl : func.impl (bound.map Prod.snd) = .error e) :
    connection_handler func (some enc) = ⟨some [("error", .str e)], true⟩ := by
  simp only [connection_handler]
  rw [if_neg hty, hbind]
  simp only [himpl]

/-- On successful binding and execution the handler replies `{result: v}`. -/
theorem connection_handler_call_ok (func : PyFunc) (enc : List (String × Value))
    (bound : List (String × Value)) (v : Value)
    (hty : ¬ decodeType enc = "docstring")
    (hbind : sigBind func.params (decodeArgs enc) (decodeKwargs enc) = .ok bound)
    (himpl : func.impl (bound.map Prod.snd) = .ok v) :
    connection_handler func (some enc) = ⟨some [("result", v)], true⟩ := by
  simp only [connection_handler]
  rw [if_neg hty, hbind]
  simp only [himpl]

/-- C3: the claim fails on the code.  For the CALL request
`sum_func(1, 2, 3)` — extra positional argument against parameters
`(a, b)` — the handler does reply with an error and does not execute the
body, but the message is the generic `too many positional arguments`,
which quotes neither declared parameter. -/
theorem c3_counterexample :
    connection_handler sum_func (some [("args", .list [.int 1, .int 2, .int 3])])
      = ⟨some [("error", .str tooManyMsg)], false⟩ ∧
    sum_func.params = ["a", "b"] ∧
    ¬ mentionsName tooManyMsg "a" ∧ ¬ mentionsName tooManyMsg "b" := by
  refine ⟨rfl, rfl, ?_, ?_⟩ <;>
    · apply not_mentionsName_of_no_squote
      decide

/-- C3 (amended): for every CALL request whose arguments do not satisfy the
declared parameters, the handler replies with an error response carrying
the `sig.bind` message and the function body is never executed; the message
quotes the offending parameter or keyword name, except for excess
positional arguments, where it is the generic
`too many positional arguments` naming no parameter. -/
theorem c3_validation_error_no_execution (func : PyFunc)
    (enc : List (String × Value)) (msg : String)
    (hty : ¬ decodeType enc = "docstring")
    (hbind : sigBind func.params (decodeArgs enc) (decodeKwargs enc) = .error msg) :
    connection_handler func (some enc) = ⟨some [("error", .str msg)], false⟩ ∧
    (msg = tooManyMsg ∨ ∃ p, mentionsName msg p ∧
      (p ∈ func.params ∨ p ∈ (decodeKwargs enc).map Prod.fst)) := by
  refine ⟨connection_handler_bind_error func enc msg hty hbind, ?_⟩
  rcases sigBind_error_shape func.params (decodeArgs enc) (decodeKwargs enc) msg hbind
    with h | ⟨p, ⟨hm | hm, hp⟩ | ⟨hm, hp⟩⟩
  · exact Or.inl h
  · exact Or.inr ⟨p, hm ▸ mentionsName_missing p, Or.inl hp⟩
  · exact Or.inr ⟨p, hm ▸ mentionsName_multiple p, Or.inl hp⟩
  · exact Or.inr ⟨p, hm ▸ mentionsName_unexpected p, Or.inr hp⟩

/-- C3 witness: `sum_func(1)` is rejected with
`missing a required argument: 'b'` without running the body, and the
message quotes a declared parameter. -/
theorem c3_validation_witness :
    connection_handler sum_func (some [("args", .list [.int 1])])
      = ⟨some [("error", .str (missingArgMsg "b"))], false⟩ ∧
    (missingArgMsg "b" = tooManyMsg ∨ ∃ p, mentionsName (missingArgMsg "b") p ∧
      (p ∈ sum_func.params ∨
        p ∈ (decodeKwargs [("args", .list [.int 1])]).map Prod.fst)) :=
  c3_validation_error_no_execution sum_func [("args", .list [.int 1])]
    (missingArgMsg "b") (by decide) rfl

/-! ### C4: round trip -/

/-- C4: for every bound function and every argument combination satisfying
its declared parameters, the full client-server round trip returns exactly
what the function body returns; in particular `call("sum_func", [3, 4])`
is `7` and `call("product_func", [3, 4])` is `12`. -/
theorem c4_call_roundtrip :
    (∀ (func : PyFunc) (args : List Value) (kwargs : List (String × Value))
        (bound : List (String × Value)) (v : Value),
      sigBind func.params args kwargs = .ok bound →
      func.impl (bound.map Prod.snd) = .ok v →
      lipCall func args kwargs = .ok v) ∧
    lipCall sum_func [.int 3, .int 4] [] = .ok (.int 7) ∧
    lipCall product_func [.int 3, .int 4] [] = .ok (.int 12) := by
  refine ⟨?_, rfl, rfl⟩
  intro func args kwargs bound v hbind himpl
  have hh := connection_handler_call_ok func
      [("args", .list args), ("kwargs", .map kwargs)] bound v
      (by rw [decodeType_call_request]; decide)
      (by rw [decodeArgs_call_request, decodeKwargs_call_request]; exact hbind)
      himpl
  unfold lipCall call_function
  rw [dirLookup_single]
  simp only [serveFunc, hh, lookupKv_result_error, lookupKv_result_result]

/-- C4 witness: the round trip instantiated at `sum_func(5, 6) = 11`. -/
theorem c4_call_roundtrip_witness : lipCall sum_func [.int 5, .int 6] [] = .ok (.int 11) :=
  c4_call_roundtrip.1 sum_func [.int 5, .int 6] []
    [("a", .int 5), ("b", .int 6)] (.int 11) rfl rfl

/-! ### C5: discovery errors vs endpoint unavailability -/

/-- C5: a name absent from the snapshot raises the not-found `ValueError`
whatever the network does (so before any connection attempt); a name whose
socket refuses the connection raises `ConnectionError`; and the two
exception kinds are distinguishable. -/
theorem c5_not_found_vs_refused :
    (∀ (sockets : Directory) (net : Network) (name : String)
        (args : List Value) (kwargs : List (String × Value)),
      dirLookup sockets name = none →
      call_function sockets net name args kwargs
        = .error (.valueError (.str (notFoundMsg name)))) ∧
    (∀ (sockets : Directory) (net : Network) (name path : String)
        (args : List Value) (kwargs : List (String × Value)),
      dirLookup sockets name = some path →
      net path = .refused →
      call_function sockets net name args kwargs
        = .error (.connectionError (refusedMsg path))) ∧
    (∀ (v : Value) (m : String), PyError.valueError v ≠ PyError.connectionError m) := by
  refine ⟨?_, ?_, ?_⟩
  · intro sockets net name args kwargs hdir
    unfold call_function
    rw [hdir]
  · intro sockets net name path args kwargs hdir hnet
    unfold call_function
    rw [hdir]
    simp only [hnet]
  · intro v m h
    exact PyError.noConfusion h

/-- C5 witness: an unknown name against a refusing network, and a known
name whose socket refuses. -/
theorem c5_not_found_vs_refused_witness :
    call_function [] (fun _ => .refused) "nonexistent" [] []
      = .error (.valueError (.str (notFoundMsg "nonexistent"))) ∧
    call_function [("sum_func", socketPathFor "sum_func")] (fun _ => .refused)
      "sum_func" [] []
      = .error (.connectionError (refusedMsg (socketPathFor "sum_func"))) :=
  ⟨c5_not_found_vs_refused.1 [] (fun _ => .refused) "nonexistent" [] [] rfl,
   c5_not_found_vs_refused.2.1 [("sum_func", socketPathFor "sum_func")]
     (fun _ => .refused) "sum_func" (socketPathFor "sum_func") [] []
     (dirLookup_single _ _) rfl⟩

/-! ### C6: every response carries exactly one of result or error -/

/-- The handler answers every decoded request with a `{result: v}` or an
`{error: e}` singleton map. -/
theorem connection_handler_response_shape (func : PyFunc) (enc : List (String × Value)) :
    (∃ v, (connection_handler func (some enc)).response = some [("result", v)]) ∨
    (∃ e, (connection_handler func (some enc)).response = some [("error", .str e)]) := by
  by_cases hty : decodeType enc = "docstring"
  · exact Or.inl ⟨docValue func.doc, by rw [connection_handler_docstring func enc hty]⟩
  · cases hb : sigBind func.params (decodeArgs enc) (decodeKwargs enc) with
    | error e =>
        exact Or.inr ⟨e, by rw [connection_handler_bind_error func enc e hty hb]⟩
    | ok bound =>
        cases hi : func.impl (bound.map Prod.snd) with
        | error e =>
            exact Or.inr ⟨e, by rw [connection_handler_exec_error func enc bound e hty hb hi]⟩
        | ok v =>
            exact Or.inl ⟨v, by rw [connection_handler_call_ok func enc bound v hty hb hi]⟩

/-- C6: every response map the connection handler sends holds exactly one
of the `"result"` and `"error"` keys — never both, never neither. -/
theorem c6_response_exactly_one (func : PyFunc)
    (reqData : Option (List (String × Value))) (resp : List (String × Value))
    (h : (connection_handler func reqData).response = some resp) :
    (lookupKv resp "result").isSome ≠ (lookupKv resp "error").isSome := by
  cases reqData with
  | none => exact absurd h (by simp [connection_handler])
  | some enc =>
      rcases connection_handler_response_shape func enc with ⟨v, hv⟩ | ⟨e, he⟩
      · rw [hv] at h
        injection h with h
        subst h
        simp [lookupKv_result_result, lookupKv_result_error]
      · rw [he] at h
        injection h with h
        subst h
        simp [lookupKv_error_result, lookupKv_error_error]

/-- C6 witness: the response to `sum_func(3, 4)` holds a result and no
error. -/
theorem c6_response_exactly_one_witness :
    (lookupKv [("result", Value.int 7)] "result").isSome
      ≠ (lookupKv [("result", Value.int 7)] "error").isSome :=
  c6_response_exactly_one sum_func
    (some [("args", .list [.int 3, .int 4]), ("kwargs", .map [])])
    [("result", Value.int 7)] rfl

/-! ### C8: DESCRIBE is pure -/

/-- C8: a DESCRIBE request is answered with the function's documentation
(`null` standing for an absent docstring) without executing the body; the
response is a function of the endpoint alone, so any two DESCRIBE requests
get identical responses; and the client-side `get_docstring` round trip
returns exactly that documentation value. -/
theorem c8_describe_pure (func : PyFunc) (enc : List (String × Value))
    (hty : decodeType enc = "docstring") :
    connection_handler func (some enc) = ⟨some [("result", docValue func.doc)], false⟩ ∧
    (∀ enc2, decodeType enc2 = "docstring" →
      connection_handler func (some enc2) = connection_handler func (some enc)) ∧
    lipGetDoc func = .ok (docValue func.doc) := by
  refine ⟨connection_handler_docstring func enc hty, ?_, ?_⟩
  · intro enc2 hty2
    rw [connection_handler_docstring func enc2 hty2, connection_handler_docstring func enc hty]
  · have hh := connection_handler_docstring func [("type", .str "docstring")] rfl
    unfold lipGetDoc get_docstring
    rw [dirLookup_single]
    simp only [serveFunc, hh, lookupKv_result_result]

/-- C8 witness: DESCRIBE against `sum_func` (whose docstring is absent). -/
theorem c8_describe_pure_witness :
    connection_handler sum_func (some [("type", .str "docstring")])
      = ⟨some [("result", docValue sum_func.doc)], false⟩ ∧
    (∀ enc2, decodeType enc2 = "docstring" →
      connection_handler sum_func (some enc2)
        = connection_handler sum_func (some [("type", .str "docstring")])) ∧
    lipGetDoc sum_func = .ok (docValue sum_func.doc) :=
  c8_describe_pure sum_func [("type", .str "docstring")] rfl

/-! ### C9: a silent server yields None, indistinguishable from a None result -/

/-- C9: when the server closes without sending bytes, `call_function` and
`get_docstring` return `None` rather than raising; and the outcome is the
same as that of a server answering `{result: None}`. -/
theorem c9_empty_response_none (sockets : Directory) (net : Network)
    (name path : String) (args : List Value) (kwargs : List (String × Value))
    (hdir : dirLookup sockets name = some path)
    (hnet : net path = .connected (fun _ => none)) :
    call_function sockets net name args kwargs = .ok .null ∧
    get_docstring sockets net name = .ok .null ∧
    (∀ net2 : Network, net2 path = .connected (fun _ => some [("result", .null)]) →
      call_function sockets net2 name args kwargs
        = call_function sockets net name args kwargs) := by
  refine ⟨?_, ?_, ?_⟩
  · unfold call_function
    rw [hdir]
    simp only [hnet]
  · unfold get_docstring
    rw [hdir]
    simp only [hnet]
  · intro net2 hnet2
    unfold call_function
    rw [hdir]
    simp only [hnet, hnet2, lookupKv_result_error, lookupKv_result_result]

/-- C9 witness: a one-entry directory whose server closes silently. -/
theorem c9_empty_response_none_witness :
    call_function [("sum_func", socketPathFor "sum_func")]
      (fun _ => .connected (fun _ => none)) "sum_func" [] [] = .ok .null ∧
    get_docstring [("sum_func", socketPathFor "sum_func")]
      (fun _ => .connected (fun _ => none)) "sum_func" = .ok .null ∧
    (∀ net2 : Network,
      net2 (socketPathFor "sum_func") = .connected (fun _ => some [("result", .null)]) →
      call_function [("sum_func", socketPathFor "sum_func")] net2 "sum_func" [] []
        = call_function [("sum_func", socketPathFor "sum_func")]
            (fun _ => .connected (fun _ => none)) "sum_func" [] []) :=
  c9_empty_response_none [("sum_func", socketPathFor "sum_func")]
    (fun _ => .connected (fun _ => none)) "sum_func" (socketPathFor "sum_func")
    [] [] (dirLookup_single _ _) rfl

/-! ### C10: cache capacity semantics -/

theorem lruLookup_some_filter_length {K V : Type} [DecidableEq K]
    (cache : LruCache K V) (k : K) (v : V) (h : lruLookup cache k = some v) :
    (cache.filter (fun e => ¬ e.1 = k)).length < cache.length := by
  induction cache with
  | nil => exact absurd h (by simp [lruLookup])
  | cons hd tl ih =>
      obtain ⟨k2, v2⟩ := hd
      rw [List.filter_cons]
      by_cases he : k2 = k
      · subst he
        rw [if_neg (by simp)]
        exact Nat.lt_succ_of_le (List.length_filter_le _ _)
      · have h2 : lruLookup tl k = some v := by
          simpa [lruLookup, he] using h
        rw [if_pos (by simp [he])]
        simpa [List.length_cons] using Nat.succ_lt_succ (ih h2)

theorem lruStep_some_length_le {K V : Type} [DecidableEq K] (n : Nat) (f : K → V)
    (cache : LruCache K V) (k : K) (h : cache.length ≤ n) :
    (lruStep (some n) f cache k).length ≤ n := by
  unfold lruStep
  cases hl : lruLookup cache k with
  | some v =>
      have := lruLookup_some_filter_length cache k v hl
      simp only [List.length_cons]
      omega
  | none =>
      simp [List.length_take]

theorem lruRun_some_length_le {K V : Type} [DecidableEq K] (n : Nat) (f : K → V)
    (ks : List K) (cache : LruCache K V) (h : cache.length ≤ n) :
    (lruRun (some n) f cache ks).length ≤ n := by
  induction ks generalizing cache with
  | nil => simpa [lruRun] using h
  | cons k ks ih =>
      simp only [lruRun]
      exact ih _ (lruStep_some_length_le n f cache k h)

theorem lruStep_none_mem {K V : Type} [DecidableEq K] (f : K → V)
    (cache : LruCache K V) (k k0 : K)
    (h : k0 = k ∨ k0 ∈ cache.map Prod.fst) :
    k0 ∈ (lruStep none f cache k).map Prod.fst := by
  unfold lruStep
  cases hl : lruLookup cache k with
  | some v =>
      simp only [List.map_cons, List.mem_cons]
      rcases h with rfl | hmem
      · exact Or.inl rfl
      · by_cases hk : k0 = k
        · exact Or.inl hk
        · right
          rcases List.mem_map.mp hmem with ⟨e, he, rfl⟩
          exact List.mem_map_of_mem _ (List.mem_filter.mpr ⟨he, by simp [hk]⟩)
  | none =>
      simp only [List.map_cons, List.mem_cons]
      rcases h with rfl | hmem
      · exact Or.inl rfl
      · exact Or.inr hmem

theorem lruRun_none_mem {K V : Type} [DecidableEq K] (f : K → V)
    (ks : List K) (cache : LruCache K V) (k0 : K)
    (h : k0 ∈ ks ∨ k0 ∈ cache.map Prod.fst) :
    k0 ∈ (lruRun none f cache ks).map Prod.fst := by
  induction ks generalizing cache with
  | nil =>
      rcases h with h | h
      · exact absurd h (by simp)
      · simpa [lruRun] using h
  | cons k ks ih =>
      simp only [lruRun]
      apply ih
      rcases h with hks | hc
      · rcases List.mem_cons.mp hks with rfl | h2
        · exact Or.inr (lruStep_none_mem f cache k0 k0 (Or.inl rfl))
        · exact Or.inl h2
      · exact Or.inr (lruStep_none_mem f cache k k0 (Or.inr hc))

/-- C10: with caching enabled, a zero or negative `lru_max` is turned into
`None` by `__init__`, i.e. an unbounded `lru_cache` from which no key is
ever evicted; only a strictly positive `lru_max` reaches `lru_cache` as a
capacity, and that cache never holds more than `lru_max` entries. -/
theorem c10_lru_capacity :
    (∀ (log_level lru_max : Int) (lru : Bool), lru_max ≤ 0 →
      (LIPModule.init log_level lru lru_max).lru_max = none ∧ lruMaxOf lru_max = none) ∧
    (∀ (K V : Type) (inst : DecidableEq K) (f : K → V) (ks : List K)
        (cache : LruCache K V) (k0 : K),
      k0 ∈ ks ∨ k0 ∈ cache.map Prod.fst →
      k0 ∈ (lruRun none f cache ks).map Prod.fst) ∧
    (∀ (log_level lru_max : Int) (lru : Bool), 0 < lru_max →
      (LIPModule.init log_level lru lru_max).lru_max = some lru_max ∧
        lruMaxOf lru_max = some lru_max.toNat) ∧
    (∀ (K V : Type) (inst : DecidableEq K) (n : Nat) (f : K → V) (ks : List K)
        (cache : LruCache K V),
      cache.length ≤ n → (lruRun (some n) f cache ks).length ≤ n) := by
  refine ⟨?_, ?_, ?_, ?_⟩
  · intro log_level lru_max lru h
    constructor
    · simp [LIPModule.init, not_lt.mpr h]
    · simp [lruMaxOf, not_lt.mpr h]
  · intro K V inst f ks cache k0 h
    exact lruRun_none_mem f ks cache k0 h
  · intro log_level lru_max lru h
    constructor
    · simp [LIPModule.init, h]
    · simp [lruMaxOf, h]
  · intro K V inst n f ks cache h
    exact lruRun_some_length_le n f ks cache h

/-- C10 witness: `lru_max = -3` and `lru_max = 0` give an unbounded cache
keeping every key; `lru_max = 2` bounds a three-insertion run at two
entries. -/
theorem c10_lru_capacity_witness :
    ((LIPModule.init 20 true (-3)).lru_max = none ∧ lruMaxOf (-3) = none) ∧
    ((LIPModule.init 20 true 0).lru_max = none ∧ lruMaxOf 0 = none) ∧
    (7 : Nat) ∈ (lruRun none (fun n => n) ([] : LruCache Nat Nat) [7, 8, 9]).map Prod.fst ∧
    ((LIPModule.init 20 true 2).lru_max = some 2 ∧ lruMaxOf 2 = some (2 : Int).toNat) ∧
    (lruRun (some 2) (fun n => n) ([] : LruCache Nat Nat) [7, 8, 9]).length ≤ 2 :=
  ⟨c10_lru_capacity.1 20 (-3) true (by decide),
   c10_lru_capacity.1 20 0 true (by decide),
   c10_lru_capacity.2.1 Nat Nat inferInstance (fun n => n) [7, 8, 9] [] 7 (Or.inl (by decide)),
   c10_lru_capacity.2.2.1 20 2 true (by decide),
   c10_lru_capacity.2.2.2 Nat Nat inferInstance 2 (fun n => n) [7, 8, 9] [] (by decide)⟩

end LIP
